import Mathlib

/-
Verification development for the per-identifier token-bucket rate limiter of
theopenlane/echox (middleware package).

The repository ships the test file middleware/rate_limiter_test.go for this
component, while the implementation file itself is not among the visible
sources; the definitions below are therefore modelled from the repository's
specification of the component (token bucket, in-memory visitor store,
reclaimer, middleware adapter), with the Go tests used to pin concrete
expected values.

Modelling conventions:
- time is measured in seconds as a rational number (`ℚ`); the Go code's
  injectable `timeNow` clock becomes an explicit `now : ℚ` argument;
- the token count is a rational number standing for the Go float64;
- the visitor map becomes an association list `List (String × Visitor)`;
- the Go mutation of the store becomes explicit state passing: `Allow`
  returns the decision together with the updated store.
-/

/-- Modelled from the spec: the token-bucket state of one visitor
(`golang.org/x/time/rate`-style limiter; the implementation source is not
among the visible files).  `rate` is tokens added per second, `burst` the
maximum capacity, `tokens` the current token count and `last` the time of
the last state update. -/
structure Limiter where
  rate : ℚ
  burst : ℤ
  tokens : ℚ
  last : ℚ
deriving DecidableEq

/-- Modelled from the spec: `Allow(t)` for the token bucket.  Elapsed time
since the last update is multiplied by `rate`, added to the stored token
count and clamped to `[0, burst]`; if at least one token is available the
event is admitted and consumes exactly one token, otherwise the event is
denied and no token is consumed (the bucket state is left unchanged). -/
def Limiter.allow (l : Limiter) (t : ℚ) : Bool × Limiter :=
  let tok := max 0 (min (l.burst : ℚ) (l.tokens + l.rate * (t - l.last)))
  if 1 ≤ tok then (true, { l with tokens := tok - 1, last := t })
  else (false, l)

/-- Modelled from the spec: one identifier's limiting state — the token
bucket plus the wall-clock time of the most recent `Allow` call for this
identifier. -/
structure Visitor where
  limiter : Limiter
  lastSeen : ℚ
deriving DecidableEq

/-- Lookup in the association-list model of the visitor map. -/
def findVisitor : List (String × Visitor) → String → Option Visitor
  | [], _ => none
  | (k, v) :: rest, id => if k = id then some v else findVisitor rest id

/-- Insert-or-replace in the association-list model of the visitor map. -/
def updateVisitor : List (String × Visitor) → String → Visitor → List (String × Visitor)
  | [], id, v => [(id, v)]
  | (k, w) :: rest, id, v =>
    if k = id then (k, v) :: rest else (k, w) :: updateVisitor rest id v

/-- Modelled from the spec: the in-memory store — the configured refill
rate, burst capacity and visitor-expiry window, together with the registry
mapping identifiers to visitors (the implementation source is not among the
visible files). -/
structure RateLimiterMemoryStore where
  rate : ℚ
  burst : ℤ
  expiresIn : ℚ
  visitors : List (String × Visitor)
deriving DecidableEq

/-- Modelled from the spec: `Allow(identifier)` of the in-memory store.
Look up the identifier; if absent, create a new visitor with a
freshly-initialized full bucket using the store's configured rate and
burst; regardless of new or existing, call the bucket's `Allow(now)`,
update `lastSeen := now`, and return the boolean decision (the in-memory
store never returns an error).  The injected clock is the explicit `now`
argument. -/
def RateLimiterMemoryStore.Allow (store : RateLimiterMemoryStore) (id : String) (now : ℚ) :
    Bool × RateLimiterMemoryStore :=
  let v := match findVisitor store.visitors id with
    | some v => v
    | none =>
      { limiter :=
          { rate := store.rate, burst := store.burst, tokens := (store.burst : ℚ), last := now }
        lastSeen := now }
  let r := v.limiter.allow now
  (r.1, { store with visitors := updateVisitor store.visitors id { limiter := r.2, lastSeen := now } })

/-- Modelled from the spec: one reclaim pass — iterate all visitors and
remove every visitor whose `lastSeen` is older than `now - expiresIn`. -/
def RateLimiterMemoryStore.cleanupStaleVisitors (store : RateLimiterMemoryStore) (now : ℚ) :
    RateLimiterMemoryStore :=
  { store with visitors := store.visitors.filter (fun p => now - p.2.lastSeen ≤ store.expiresIn) }

/-- Modelled from the spec: the configuration passed to the in-memory store
constructor (`Rate` tokens per second, `Burst` capacity, `ExpiresIn`
visitor-expiry window in seconds). -/
structure RateLimiterMemoryStoreConfig where
  Rate : ℚ
  Burst : ℤ
  ExpiresIn : ℚ
deriving DecidableEq

/-- Modelled from the spec: store construction.  If `rate` and `burst` are
both zero/unset they default to `rate = 10`, `burst = 30`; if
`expiresIn ≤ 0` it defaults to 3 minutes (180 seconds).  Construction is
total: the test suite calls the constructor as a single-result function
and requires that a `rate = 0, burst = 0, expiresIn = 0` configuration
yields a store with the documented defaults, so no configuration is
rejected here. -/
def NewRateLimiterMemoryStoreWithConfig (config : RateLimiterMemoryStoreConfig) :
    RateLimiterMemoryStore :=
  { rate := if config.Rate = 0 ∧ config.Burst = 0 then 10 else config.Rate
    burst := if config.Rate = 0 ∧ config.Burst = 0 then 30 else config.Burst
    expiresIn := if config.ExpiresIn ≤ 0 then 180 else config.ExpiresIn
    visitors := [] }

/-- Run a sequence of `Allow` calls against the store, returning the list
of decisions in order; each call is a pair of identifier and clock time. -/
def allowRun (s : RateLimiterMemoryStore) : List (String × ℚ) → List Bool
  | [] => []
  | (id, t) :: rest =>
    let r := s.Allow id t
    r.1 :: allowRun r.2 rest

/-- Run a sequence of `Allow` calls for one identifier at the given clock
times, returning the final store. -/
def allowAll (s : RateLimiterMemoryStore) (id : String) : List ℚ → RateLimiterMemoryStore
  | [] => s
  | t :: ts => allowAll (s.Allow id t).2 id ts

/-- C1: for a memory store configured with Rate = 1 and Burst = 3, the
`Allow` calls for one fixed identifier at clock times 0 ms, 220 ms,
440 ms, 660 ms, 880 ms and 1100 ms after the first call return allowed,
allowed, allowed, denied, denied, allowed, in that order. -/
theorem C1_allow_refill_sequence (id : String) :
    allowRun (NewRateLimiterMemoryStoreWithConfig { Rate := 1, Burst := 3, ExpiresIn := 2 })
      [(id, 0), (id, 11/50), (id, 22/50), (id, 33/50), (id, 44/50), (id, 55/50)]
      = [true, true, true, false, false, true] := by
  norm_num [allowRun, RateLimiterMemoryStore.Allow, Limiter.allow,
    NewRateLimiterMemoryStoreWithConfig, findVisitor, updateVisitor, min_def, max_def]

/-- C5: for every construction of the memory store, if the configured
`ExpiresIn` is zero or negative the stored expiry is 3 minutes
(180 seconds); if `ExpiresIn` is an explicit positive duration, that
duration is stored exactly. -/
theorem C5_expiresIn_default (config : RateLimiterMemoryStoreConfig) :
    (config.ExpiresIn ≤ 0 →
      (NewRateLimiterMemoryStoreWithConfig config).expiresIn = 180) ∧
    (0 < config.ExpiresIn →
      (NewRateLimiterMemoryStoreWithConfig config).expiresIn = config.ExpiresIn) := by
  constructor
  · intro h
    simp [NewRateLimiterMemoryStoreWithConfig, h]
  · intro h
    simp [NewRateLimiterMemoryStoreWithConfig, not_le.mpr h]

/-- C5 witness: the defaulting and the exact-preservation branches at the
concrete configurations of the repository's constructor test. -/
theorem C5_expiresIn_default_witness :
    ((0 : ℚ) ≤ 0 ∧
      (NewRateLimiterMemoryStoreWithConfig { Rate := 2, Burst := 4, ExpiresIn := 0 }).expiresIn
        = 180) ∧
    ((0 : ℚ) < 5 ∧
      (NewRateLimiterMemoryStoreWithConfig { Rate := 1, Burst := 3, ExpiresIn := 5 }).expiresIn
        = 5) :=
  ⟨⟨le_refl 0, (C5_expiresIn_default { Rate := 2, Burst := 4, ExpiresIn := 0 }).1 (le_refl 0)⟩,
   ⟨by norm_num,
    (C5_expiresIn_default { Rate := 1, Burst := 3, ExpiresIn := 5 }).2 (by norm_num)⟩⟩

/-- C6 counterexample: a store constructed with explicit nonzero rate and
burst but `ExpiresIn = 0` nevertheless falls under the 3-minute default:
the stored expiry is 180 seconds, not the configured 0.  This refutes the
claim that the default applies only when rate and burst are both unset. -/
theorem C6_counterexample :
    (NewRateLimiterMemoryStoreWithConfig { Rate := 2, Burst := 4, ExpiresIn := 0 }).expiresIn
        = 180 ∧
    (180 : ℚ) ≠ 0 := by
  constructor
  · simp [NewRateLimiterMemoryStoreWithConfig]
  · norm_num

/-- C6 (amended): the 3-minute default for `expiresIn` is applied exactly
when the configured `ExpiresIn` is ≤ 0, regardless of the configured rate
and burst; in particular a store constructed with explicit nonzero rate
and burst and `ExpiresIn = 0` also receives the 3-minute default. -/
theorem C6_expiresIn_default_condition (config : RateLimiterMemoryStoreConfig) :
    (NewRateLimiterMemoryStoreWithConfig config).expiresIn = 180 ↔
      (config.ExpiresIn ≤ 0 ∨ config.ExpiresIn = 180) := by
  by_cases h : config.ExpiresIn ≤ 0
  · simp [NewRateLimiterMemoryStoreWithConfig, h]
  · simp only [NewRateLimiterMemoryStoreWithConfig, if_neg h]
    tauto

/-- C10 counterexample: a configuration with `Burst = 0` (hence
`burst < 1`) is not rejected: construction succeeds, the documented
defaults `rate = 10`, `burst = 30` are applied, and the produced limiter
is a working limiter (its first `Allow` call is admitted).  This refutes
the claim that store construction fails for every `burst < 1`
configuration. -/
theorem C10_counterexample :
    (NewRateLimiterMemoryStoreWithConfig { Rate := 0, Burst := 0, ExpiresIn := 0 }).burst = 30 ∧
    (NewRateLimiterMemoryStoreWithConfig { Rate := 0, Burst := 0, ExpiresIn := 0 }).rate = 10 ∧
    ((NewRateLimiterMemoryStoreWithConfig
        { Rate := 0, Burst := 0, ExpiresIn := 0 }).Allow "127.0.0.1" 0).1 = true := by
  refine ⟨by simp [NewRateLimiterMemoryStoreWithConfig], by simp [NewRateLimiterMemoryStoreWithConfig], ?_⟩
  norm_num [NewRateLimiterMemoryStoreWithConfig, RateLimiterMemoryStore.Allow,
    Limiter.allow, findVisitor, min_def, max_def]

/-- C10 (amended): a configuration with `burst < 1` is not rejected at
store construction; construction always succeeds: when rate and burst are
both zero the documented defaults `rate = 10`, `burst = 30` are applied,
and otherwise the configured rate and burst are stored unchanged (not
clamped). -/
theorem C10_burst_not_rejected (config : RateLimiterMemoryStoreConfig)
    (hb : config.Burst < 1) :
    ((config.Rate = 0 ∧ config.Burst = 0) →
      (NewRateLimiterMemoryStoreWithConfig config).rate = 10 ∧
      (NewRateLimiterMemoryStoreWithConfig config).burst = 30) ∧
    (¬(config.Rate = 0 ∧ config.Burst = 0) →
      (NewRateLimiterMemoryStoreWithConfig config).rate = config.Rate ∧
      (NewRateLimiterMemoryStoreWithConfig config).burst = config.Burst) := by
  constructor
  · intro h
    simp [NewRateLimiterMemoryStoreWithConfig, h.1, h.2]
  · intro h
    simp [NewRateLimiterMemoryStoreWithConfig, h]

/-- C10 witness: the default branch at the all-zero configuration and the
unclamped branch at a nonzero-rate configuration with `Burst = 0`. -/
theorem C10_burst_not_rejected_witness :
    ((0 : ℤ) < 1 ∧
      (NewRateLimiterMemoryStoreWithConfig { Rate := 0, Burst := 0, ExpiresIn := 0 }).rate = 10 ∧
      (NewRateLimiterMemoryStoreWithConfig { Rate := 0, Burst := 0, ExpiresIn := 0 }).burst = 30) ∧
    ((0 : ℤ) < 1 ∧
      (NewRateLimiterMemoryStoreWithConfig { Rate := 1, Burst := 0, ExpiresIn := 0 }).rate = 1 ∧
      (NewRateLimiterMemoryStoreWithConfig { Rate := 1, Burst := 0, ExpiresIn := 0 }).burst = 0) :=
  ⟨⟨by norm_num,
    (C10_burst_not_rejected { Rate := 0, Burst := 0, ExpiresIn := 0 } (by norm_num)).1
      ⟨rfl, rfl⟩⟩,
   ⟨by norm_num,
    (C10_burst_not_rejected { Rate := 1, Burst := 0, ExpiresIn := 0 } (by norm_num)).2
      (by norm_num)⟩⟩

/-- Modelled from the spec: the typed failure outcome the default deny and
error handlers produce (status code, fixed message, optional internal
detail), standing for the framework's HTTP error value. -/
structure HTTPError where
  code : ℕ
  message : String
  internal : Option String
deriving DecidableEq

/-- Observable side effects of one pass of the middleware adapter, in the
order they occur: the before hook ran, the identifier extractor ran, an
`Allow` call reached the store for the given identifier, the next handler
ran. -/
inductive MWEvent where
  | beforeRan : MWEvent
  | extractorRan : MWEvent
  | storeAllowRan : String → MWEvent
  | nextRan : MWEvent
deriving DecidableEq

/-- Modelled from the spec: the middleware adapter configuration — skip
predicate, optional before hook (recorded here as its presence), identifier
extractor, deny handler, error handler and the required store (absent when
`none`, the Go nil).  `Ctx` stands for the framework's request context. -/
structure RateLimiterConfig (Ctx : Type) where
  Skipper : Ctx → Bool
  hasBeforeFunc : Bool
  IdentifierExtractor : Ctx → Except String String
  DenyHandler : Ctx → String → Except HTTPError Unit
  ErrorHandler : Ctx → String → Except HTTPError Unit
  Store : Option RateLimiterMemoryStore

/-- Modelled from the spec: the default deny handler — fail the request
with a 429 "too many requests" outcome and the fixed message
"rate limit exceeded". -/
def DefaultRateLimiterDenyHandler (Ctx : Type) : Ctx → String → Except HTTPError Unit :=
  fun _ _ => Except.error { code := 429, message := "rate limit exceeded", internal := none }

/-- Modelled from the spec: the default error handler — fail the request
with a 403 "forbidden" outcome carrying the extraction error as internal
detail. -/
def DefaultRateLimiterErrorHandler (Ctx : Type) : Ctx → String → Except HTTPError Unit :=
  fun _ e =>
    Except.error { code := 403, message := "error while extracting identifier", internal := some e }

/-- Modelled from the spec: one pass of the middleware adapter over a
request, with the store threaded as explicit state and the observable
hook/store/next invocations recorded as an event trace.  The request
algorithm, in order: (1) if skipped, delegate to the next handler and
stop; (2) invoke the before hook if present; (3) extract the identifier —
on failure invoke the error handler and stop; (4) call the store's
`Allow(identifier)`; (5) if not allowed, invoke the deny handler and stop;
(6) otherwise delegate to the next handler. -/
def rateLimiterHandle {Ctx : Type} (cfg : RateLimiterConfig Ctx)
    (next : Ctx → Except HTTPError Unit) (store : RateLimiterMemoryStore) (now : ℚ) (c : Ctx) :
    Except HTTPError Unit × RateLimiterMemoryStore × List MWEvent :=
  if cfg.Skipper c then
    (next c, store, [MWEvent.nextRan])
  else
    let ev0 := if cfg.hasBeforeFunc then [MWEvent.beforeRan] else []
    match cfg.IdentifierExtractor c with
    | Except.error e => (cfg.ErrorHandler c e, store, ev0 ++ [MWEvent.extractorRan])
    | Except.ok id =>
      let r := store.Allow id now
      if r.1 then
        (next c, r.2, ev0 ++ [MWEvent.extractorRan, MWEvent.storeAllowRan id, MWEvent.nextRan])
      else
        (cfg.DenyHandler c id, r.2, ev0 ++ [MWEvent.extractorRan, MWEvent.storeAllowRan id])

/-- Modelled from the spec: adapter construction.  A configuration without
a store is a configuration error surfaced at construction time: building
the middleware fails; any configuration with a store constructs the
middleware (the per-request pass closed over the configured store). -/
def RateLimiterConfig.ToMiddleware {Ctx : Type} (cfg : RateLimiterConfig Ctx) :
    Except String
      ((Ctx → Except HTTPError Unit) → ℚ → Ctx →
        Except HTTPError Unit × RateLimiterMemoryStore × List MWEvent) :=
  match cfg.Store with
  | none => Except.error "store configuration must be provided"
  | some s => Except.ok (fun next now c => rateLimiterHandle cfg next s now c)

/-- C7: whenever the skip predicate returns true for a request, the
middleware delegates directly to the next handler: the before hook is not
invoked, the identifier extractor is not invoked, no `Allow` call reaches
the store (the store state is unchanged, so no quota is consumed), and the
request outcome equals the next handler's outcome. -/
theorem C7_skipper_bypass {Ctx : Type} (cfg : RateLimiterConfig Ctx)
    (next : Ctx → Except HTTPError Unit) (store : RateLimiterMemoryStore) (now : ℚ) (c : Ctx)
    (hskip : cfg.Skipper c = true) :
    (rateLimiterHandle cfg next store now c).1 = next c ∧
    (rateLimiterHandle cfg next store now c).2.1 = store ∧
    (rateLimiterHandle cfg next store now c).2.2 = [MWEvent.nextRan] := by
  simp [rateLimiterHandle, hskip]

/-- C7 witness: a concrete always-skipping configuration over a unit
context, with a before hook present and an exhausted store, still hands
the request to the next handler untouched. -/
theorem C7_skipper_bypass_witness :
    ({ Skipper := fun _ => true, hasBeforeFunc := true
       IdentifierExtractor := fun _ => Except.ok "127.0.0.1"
       DenyHandler := DefaultRateLimiterDenyHandler Unit
       ErrorHandler := DefaultRateLimiterErrorHandler Unit
       Store := some (NewRateLimiterMemoryStoreWithConfig { Rate := 1, Burst := 3, ExpiresIn := 2 })
     } : RateLimiterConfig Unit).Skipper () = true ∧
    ((rateLimiterHandle
        { Skipper := fun _ => true, hasBeforeFunc := true
          IdentifierExtractor := fun _ => Except.ok "127.0.0.1"
          DenyHandler := DefaultRateLimiterDenyHandler Unit
          ErrorHandler := DefaultRateLimiterErrorHandler Unit
          Store := some (NewRateLimiterMemoryStoreWithConfig { Rate := 1, Burst := 3, ExpiresIn := 2 }) }
        (fun _ => Except.ok ())
        (NewRateLimiterMemoryStoreWithConfig { Rate := 1, Burst := 3, ExpiresIn := 2 }) 0 ()).1
        = (fun _ => Except.ok ()) () ∧
      (rateLimiterHandle
        { Skipper := fun _ => true, hasBeforeFunc := true
          IdentifierExtractor := fun _ => Except.ok "127.0.0.1"
          DenyHandler := DefaultRateLimiterDenyHandler Unit
          ErrorHandler := DefaultRateLimiterErrorHandler Unit
          Store := some (NewRateLimiterMemoryStoreWithConfig { Rate := 1, Burst := 3, ExpiresIn := 2 }) }
        (fun _ => Except.ok ())
        (NewRateLimiterMemoryStoreWithConfig { Rate := 1, Burst := 3, ExpiresIn := 2 }) 0 ()).2.1
        = NewRateLimiterMemoryStoreWithConfig { Rate := 1, Burst := 3, ExpiresIn := 2 } ∧
      (rateLimiterHandle
        { Skipper := fun _ => true, hasBeforeFunc := true
          IdentifierExtractor := fun _ => Except.ok "127.0.0.1"
          DenyHandler := DefaultRateLimiterDenyHandler Unit
          ErrorHandler := DefaultRateLimiterErrorHandler Unit
          Store := some (NewRateLimiterMemoryStoreWithConfig { Rate := 1, Burst := 3, ExpiresIn := 2 }) }
        (fun _ => Except.ok ())
        (NewRateLimiterMemoryStoreWithConfig { Rate := 1, Burst := 3, ExpiresIn := 2 }) 0 ()).2.2
        = [MWEvent.nextRan]) :=
  ⟨rfl, C7_skipper_bypass _ _ _ 0 () rfl⟩

/-- C9: constructing the middleware adapter without a store is a
configuration error surfaced at construction time: `ToMiddleware` succeeds
exactly when the configured store is present (nil store fails at setup,
any non-nil store constructs successfully). -/
theorem C9_store_required {Ctx : Type} (cfg : RateLimiterConfig Ctx) :
    cfg.ToMiddleware.isOk = cfg.Store.isSome := by
  cases h : cfg.Store <;> simp [RateLimiterConfig.ToMiddleware, h, Except.isOk, Except.toBool]

/-- C8: with the default handlers, the two rejection classes are
distinguishable and in both the next handler is not invoked: if identifier
extraction fails the request is rejected with the 403 forbidden outcome
carrying the extraction error as internal detail, and if the store reports
the identifier over budget the request is rejected with the 429 too-many-
requests outcome with the fixed message "rate limit exceeded"; the two
outcomes are never equal. -/
theorem C8_default_rejection_outcomes {Ctx : Type} (cfg : RateLimiterConfig Ctx)
    (next : Ctx → Except HTTPError Unit) (store : RateLimiterMemoryStore) (now : ℚ) (c : Ctx)
    (hskip : cfg.Skipper c = false)
    (hdeny : cfg.DenyHandler = DefaultRateLimiterDenyHandler Ctx)
    (herr : cfg.ErrorHandler = DefaultRateLimiterErrorHandler Ctx) :
    (∀ e, cfg.IdentifierExtractor c = Except.error e →
      (rateLimiterHandle cfg next store now c).1 =
        Except.error { code := 403, message := "error while extracting identifier", internal := some e } ∧
      MWEvent.nextRan ∉ (rateLimiterHandle cfg next store now c).2.2) ∧
    (∀ id, cfg.IdentifierExtractor c = Except.ok id → (store.Allow id now).1 = false →
      (rateLimiterHandle cfg next store now c).1 =
        Except.error { code := 429, message := "rate limit exceeded", internal := none } ∧
      MWEvent.nextRan ∉ (rateLimiterHandle cfg next store now c).2.2) ∧
    (∀ e, (Except.error { code := 403, message := "error while extracting identifier", internal := some e }
            : Except HTTPError Unit) ≠
          Except.error { code := 429, message := "rate limit exceeded", internal := none }) := by
  refine ⟨?_, ?_, ?_⟩
  · intro e he
    cases hbf : cfg.hasBeforeFunc <;>
      simp [rateLimiterHandle, hskip, he, herr, hbf, DefaultRateLimiterErrorHandler]
  · intro id hid hdenied
    cases hbf : cfg.hasBeforeFunc <;>
      simp [rateLimiterHandle, hskip, hid, hdenied, hdeny, hbf, DefaultRateLimiterDenyHandler]
  · intro e
    simp

/-- The identifier used by the repository's rate limiter tests. -/
def idA : String := "127.0.0.1"

/-- A next handler that always succeeds. -/
def nextOk : Unit → Except HTTPError Unit := fun _ => Except.ok ()

/-- A store whose visitor for `idA` has an empty bucket: the next `Allow`
call for `idA` at time 0 is over budget. -/
def exhaustedStore : RateLimiterMemoryStore :=
  { rate := 1, burst := 3, expiresIn := 180
    visitors := [(idA, { limiter := { rate := 1, burst := 3, tokens := 0, last := 0 }, lastSeen := 0 })] }

/-- A default-handler configuration whose identifier extraction always
fails. -/
def extractFailCfg : RateLimiterConfig Unit :=
  { Skipper := fun _ => false, hasBeforeFunc := false
    IdentifierExtractor := fun _ => Except.error "invalid identifier"
    DenyHandler := DefaultRateLimiterDenyHandler Unit
    ErrorHandler := DefaultRateLimiterErrorHandler Unit
    Store := some exhaustedStore }

/-- A default-handler configuration whose identifier extraction always
returns `idA`. -/
def extractOkCfg : RateLimiterConfig Unit :=
  { Skipper := fun _ => false, hasBeforeFunc := false
    IdentifierExtractor := fun _ => Except.ok idA
    DenyHandler := DefaultRateLimiterDenyHandler Unit
    ErrorHandler := DefaultRateLimiterErrorHandler Unit
    Store := some exhaustedStore }

/-- C8 witness: at a concrete failing extractor the outcome is the 403
forbidden error carrying the extraction error, and at a concrete exhausted
store the outcome is the 429 rate-limit error; in both runs the next
handler never runs. -/
theorem C8_default_rejection_outcomes_witness :
    (extractFailCfg.Skipper () = false ∧
     extractFailCfg.IdentifierExtractor () = Except.error "invalid identifier" ∧
     (rateLimiterHandle extractFailCfg nextOk exhaustedStore 0 ()).1 =
       Except.error
         { code := 403, message := "error while extracting identifier"
           internal := some "invalid identifier" } ∧
     MWEvent.nextRan ∉ (rateLimiterHandle extractFailCfg nextOk exhaustedStore 0 ()).2.2) ∧
    (extractOkCfg.Skipper () = false ∧
     extractOkCfg.IdentifierExtractor () = Except.ok idA ∧
     (exhaustedStore.Allow idA 0).1 = false ∧
     (rateLimiterHandle extractOkCfg nextOk exhaustedStore 0 ()).1 =
       Except.error { code := 429, message := "rate limit exceeded", internal := none } ∧
     MWEvent.nextRan ∉ (rateLimiterHandle extractOkCfg nextOk exhaustedStore 0 ()).2.2) := by
  have hden : (exhaustedStore.Allow idA 0).1 = false := by
    norm_num [exhaustedStore, RateLimiterMemoryStore.Allow, Limiter.allow, findVisitor,
      min_def, max_def]
  have h1 :=
    (C8_default_rejection_outcomes extractFailCfg nextOk exhaustedStore 0 () rfl rfl rfl).1
      "invalid identifier" rfl
  have h2 :=
    ((C8_default_rejection_outcomes extractOkCfg nextOk exhaustedStore 0 () rfl rfl rfl).2.1
      idA rfl hden)
  exact ⟨⟨rfl, rfl, h1.1, h1.2⟩, ⟨rfl, rfl, hden, h2.1, h2.2⟩⟩

/-- Updating one identifier's visitor leaves every other identifier's
lookup unchanged. -/
theorem findVisitor_updateVisitor_ne (id id2 : String) (v : Visitor) (h : id ≠ id2)
    (vs : List (String × Visitor)) :
    findVisitor (updateVisitor vs id v) id2 = findVisitor vs id2 := by
  induction vs with
  | nil => simp [updateVisitor, findVisitor, h]
  | cons p rest ih =>
    obtain ⟨k, w⟩ := p
    by_cases hk : k = id
    · subst hk
      simp [updateVisitor, findVisitor, h]
    · simp [updateVisitor, findVisitor, hk, ih]

/-- Updating an identifier's visitor makes that visitor the lookup
result. -/
theorem findVisitor_updateVisitor_self (id : String) (v : Visitor)
    (vs : List (String × Visitor)) :
    findVisitor (updateVisitor vs id v) id = some v := by
  induction vs with
  | nil => simp [updateVisitor, findVisitor]
  | cons p rest ih =>
    obtain ⟨k, w⟩ := p
    by_cases hk : k = id
    · subst hk
      simp [updateVisitor, findVisitor]
    · simp [updateVisitor, findVisitor, hk, ih]

/-- An `Allow` call leaves the store's configured rate unchanged. -/
theorem Allow_rate (s : RateLimiterMemoryStore) (id : String) (t : ℚ) :
    ((s.Allow id t).2).rate = s.rate := rfl

/-- An `Allow` call leaves the store's configured burst unchanged. -/
theorem Allow_burst (s : RateLimiterMemoryStore) (id : String) (t : ℚ) :
    ((s.Allow id t).2).burst = s.burst := rfl

/-- An `Allow` call leaves the store's configured expiry unchanged. -/
theorem Allow_expiresIn (s : RateLimiterMemoryStore) (id : String) (t : ℚ) :
    ((s.Allow id t).2).expiresIn = s.expiresIn := rfl

/-- The `Allow` decision for an identifier depends only on the store's
rate, burst, and that identifier's visitor. -/
theorem Allow_fst_congr (s1 s2 : RateLimiterMemoryStore) (id : String) (t : ℚ)
    (h1 : s1.rate = s2.rate) (h2 : s1.burst = s2.burst)
    (h3 : findVisitor s1.visitors id = findVisitor s2.visitors id) :
    (s1.Allow id t).1 = (s2.Allow id t).1 := by
  simp only [RateLimiterMemoryStore.Allow, h1, h2, h3]

/-- A whole run of `Allow` calls leaves the store's configured rate
unchanged. -/
theorem allowAll_rate (id : String) (ts : List ℚ) :
    ∀ s : RateLimiterMemoryStore, (allowAll s id ts).rate = s.rate := by
  induction ts with
  | nil => intro s; rfl
  | cons t rest ih => intro s; simp [allowAll, ih, Allow_rate]

/-- A whole run of `Allow` calls leaves the store's configured burst
unchanged. -/
theorem allowAll_burst (id : String) (ts : List ℚ) :
    ∀ s : RateLimiterMemoryStore, (allowAll s id ts).burst = s.burst := by
  induction ts with
  | nil => intro s; rfl
  | cons t rest ih => intro s; simp [allowAll, ih, Allow_burst]

/-- A whole run of `Allow` calls for identifier `A` leaves identifier
`B`'s visitor untouched. -/
theorem findVisitor_allowAll_ne (A B : String) (hAB : A ≠ B) (ts : List ℚ) :
    ∀ s : RateLimiterMemoryStore,
      findVisitor (allowAll s A ts).visitors B = findVisitor s.visitors B := by
  induction ts with
  | nil => intro s; rfl
  | cons t rest ih =>
    intro s
    calc findVisitor (allowAll (s.Allow A t).2 A rest).visitors B
        = findVisitor ((s.Allow A t).2).visitors B := ih _
      _ = findVisitor s.visitors B := findVisitor_updateVisitor_ne A B _ hAB _

/-- C4: for every pair of distinct identifiers `A` and `B`, `Allow` calls
for `A` leave the visitor state of `B` unchanged: after any run of `Allow`
calls for `A` (in particular one exhausting `A`'s budget), `B`'s visitor
lookup is what it was before, and the result of an `Allow` call for `B`
at any instant equals what it would have been without the run. -/
theorem C4_identifier_isolation (s : RateLimiterMemoryStore) (A B : String)
    (ts : List ℚ) (t2 : ℚ) (hAB : A ≠ B) :
    findVisitor (allowAll s A ts).visitors B = findVisitor s.visitors B ∧
    ((allowAll s A ts).Allow B t2).1 = (s.Allow B t2).1 := by
  refine ⟨findVisitor_allowAll_ne A B hAB ts s, ?_⟩
  exact Allow_fst_congr _ _ B t2 (allowAll_rate A ts s) (allowAll_burst A ts s)
    (findVisitor_allowAll_ne A B hAB ts s)

/-- The second identifier used by the repository's rate limiter tests. -/
def idB : String := "127.0.0.2"

/-- C4 witness: after four back-to-back `Allow` calls for `idA`
(exhausting its burst-3 budget) on a fresh rate-1/burst-3 store, the
visitor of the distinct identifier `idB` is unchanged and its `Allow`
outcome at the same instant is unchanged. -/
theorem C4_identifier_isolation_witness :
    idA ≠ idB ∧
    (findVisitor
        (allowAll (NewRateLimiterMemoryStoreWithConfig { Rate := 1, Burst := 3, ExpiresIn := 2 })
          idA [0, 0, 0, 0]).visitors idB
        = findVisitor
            (NewRateLimiterMemoryStoreWithConfig { Rate := 1, Burst := 3, ExpiresIn := 2 }).visitors
            idB ∧
      ((allowAll (NewRateLimiterMemoryStoreWithConfig { Rate := 1, Burst := 3, ExpiresIn := 2 })
          idA [0, 0, 0, 0]).Allow idB 0).1
        = ((NewRateLimiterMemoryStoreWithConfig { Rate := 1, Burst := 3, ExpiresIn := 2 }).Allow
            idB 0).1) :=
  ⟨by decide,
   C4_identifier_isolation (NewRateLimiterMemoryStoreWithConfig { Rate := 1, Burst := 3, ExpiresIn := 2 })
     idA idB [0, 0, 0, 0] 0 (by decide)⟩

/-- An identifier absent from the key list has no visitor. -/
theorem findVisitor_eq_none_of_not_mem (id : String) (vs : List (String × Visitor))
    (h : id ∉ vs.map Prod.fst) : findVisitor vs id = none := by
  induction vs with
  | nil => rfl
  | cons p rest ih =>
    obtain ⟨k, w⟩ := p
    simp only [List.map_cons, List.mem_cons, not_or] at h
    have hk : k ≠ id := fun hkid => h.1 hkid.symm
    simp [findVisitor, hk, ih h.2]

/-- Filtering cannot make an absent visitor appear. -/
theorem findVisitor_filter_none (id : String) (p : String × Visitor → Bool)
    (vs : List (String × Visitor)) (h : findVisitor vs id = none) :
    findVisitor (vs.filter p) id = none := by
  induction vs with
  | nil => rfl
  | cons q rest ih =>
    obtain ⟨k, w⟩ := q
    by_cases hk : k = id
    · simp [findVisitor, hk] at h
    · simp only [findVisitor, if_neg hk] at h
      rw [List.filter_cons]
      by_cases hp : p (k, w)
      · simp [hp, findVisitor, hk, ih h]
      · simp [hp, ih h]

/-- With duplicate-free keys, a visitor that satisfies the filter
predicate survives filtering with the same lookup result. -/
theorem findVisitor_filter_pos (id : String) (v : Visitor) (p : String × Visitor → Bool)
    (vs : List (String × Visitor)) (hnd : (vs.map Prod.fst).Nodup)
    (hfind : findVisitor vs id = some v) (hp : p (id, v) = true) :
    findVisitor (vs.filter p) id = some v := by
  induction vs with
  | nil => simp [findVisitor] at hfind
  | cons q rest ih =>
    obtain ⟨k, w⟩ := q
    simp only [List.map_cons, List.nodup_cons] at hnd
    by_cases hk : k = id
    · subst hk
      simp only [findVisitor, if_pos rfl, if_true, eq_self_iff_true, ite_true,
        Option.some.injEq] at hfind
      subst hfind
      rw [List.filter_cons, if_pos (by simpa using hp)]
      simp [findVisitor]
    · simp only [findVisitor, if_neg hk] at hfind
      rw [List.filter_cons]
      by_cases hq : p (k, w)
      · simp [hq, findVisitor, hk, ih hnd.2 hfind]
      · simp [hq, ih hnd.2 hfind]

/-- With duplicate-free keys, a visitor that fails the filter predicate is
absent after filtering. -/
theorem findVisitor_filter_neg (id : String) (v : Visitor) (p : String × Visitor → Bool)
    (vs : List (String × Visitor)) (hnd : (vs.map Prod.fst).Nodup)
    (hfind : findVisitor vs id = some v) (hp : p (id, v) = false) :
    findVisitor (vs.filter p) id = none := by
  induction vs with
  | nil => simp [findVisitor] at hfind
  | cons q rest ih =>
    obtain ⟨k, w⟩ := q
    simp only [List.map_cons, List.nodup_cons] at hnd
    by_cases hk : k = id
    · subst hk
      simp only [findVisitor, if_pos rfl, if_true, eq_self_iff_true, ite_true,
        Option.some.injEq] at hfind
      subst hfind
      rw [List.filter_cons, if_neg (by simp [hp])]
      exact findVisitor_filter_none _ _ _ (findVisitor_eq_none_of_not_mem _ _ hnd.1)
    · simp only [findVisitor, if_neg hk] at hfind
      rw [List.filter_cons]
      by_cases hq : p (k, w)
      · simp [hq, findVisitor, hk, ih hnd.2 hfind]
      · simp [hq, ih hnd.2 hfind]

/-- Every key of the updated map is the inserted key or one of the old
keys. -/
theorem mem_keys_updateVisitor (a id : String) (v : Visitor)
    (vs : List (String × Visitor)) (h : a ∈ (updateVisitor vs id v).map Prod.fst) :
    a = id ∨ a ∈ vs.map Prod.fst := by
  induction vs with
  | nil => simpa [updateVisitor] using h
  | cons q rest ih =>
    obtain ⟨k, w⟩ := q
    by_cases hk : k = id
    · subst hk
      simpa [updateVisitor] using h
    · simp only [updateVisitor, if_neg hk, List.map_cons, List.mem_cons] at h
      rcases h with h | h
      · exact Or.inr (by simp [h])
      · rcases ih h with h2 | h2
        · exact Or.inl h2
        · exact Or.inr (by simp [h2])

/-- Insert-or-replace preserves duplicate-freeness of the keys. -/
theorem nodup_keys_updateVisitor (id : String) (v : Visitor)
    (vs : List (String × Visitor)) (hnd : (vs.map Prod.fst).Nodup) :
    ((updateVisitor vs id v).map Prod.fst).Nodup := by
  induction vs with
  | nil => simp [updateVisitor]
  | cons q rest ih =>
    obtain ⟨k, w⟩ := q
    simp only [List.map_cons, List.nodup_cons] at hnd
    by_cases hk : k = id
    · subst hk
      simpa [updateVisitor] using hnd
    · simp only [updateVisitor, if_neg hk, List.map_cons, List.nodup_cons]
      refine ⟨fun hmem => ?_, ih hnd.2⟩
      rcases mem_keys_updateVisitor k id v rest hmem with h2 | h2
      · exact hk h2
      · exact hnd.1 h2

/-- C3: after one `cleanupStaleVisitors` pass at clock `now` on a store
with a 3-minute (180-second) expiry and duplicate-free keys: every visitor
whose `lastSeen` is older than `now - expiresIn` is absent from the
registry, every visitor whose `lastSeen` lies within the expiry window is
retained unchanged, and a visitor on which `Allow` was invoked immediately
before the pass is retained even if its previous `lastSeen` was older than
the window, because every `Allow` call sets that visitor's `lastSeen` to
`now`. -/
theorem C3_cleanup_stale_visitors (s : RateLimiterMemoryStore) (now : ℚ)
    (hnd : (s.visitors.map Prod.fst).Nodup) (hexp : s.expiresIn = 180) :
    (∀ id v, findVisitor s.visitors id = some v → v.lastSeen < now - 180 →
      findVisitor (s.cleanupStaleVisitors now).visitors id = none) ∧
    (∀ id v, findVisitor s.visitors id = some v → now - 180 ≤ v.lastSeen →
      findVisitor (s.cleanupStaleVisitors now).visitors id = some v) ∧
    (∀ id,
      (findVisitor (((s.Allow id now).2).cleanupStaleVisitors now).visitors id).isSome = true) := by
  refine ⟨?_, ?_, ?_⟩
  · intro id v hfind hold
    apply findVisitor_filter_neg id v _ _ hnd hfind
    apply decide_eq_false
    rw [hexp]
    intro hcon
    linarith
  · intro id v hfind hyoung
    apply findVisitor_filter_pos id v _ _ hnd hfind
    apply decide_eq_true
    rw [hexp]
    linarith
  · intro id
    obtain ⟨v2, hvis, hseen⟩ :
        ∃ v2, ((s.Allow id now).2).visitors = updateVisitor s.visitors id v2 ∧
          v2.lastSeen = now := ⟨_, rfl, rfl⟩
    have hnd2 : (((s.Allow id now).2).visitors.map Prod.fst).Nodup := by
      rw [hvis]
      exact nodup_keys_updateVisitor id v2 s.visitors hnd
    have hfind2 : findVisitor ((s.Allow id now).2).visitors id = some v2 := by
      rw [hvis]
      exact findVisitor_updateVisitor_self id v2 s.visitors
    have hkeep := findVisitor_filter_pos id v2
      (fun q => decide (now - q.2.lastSeen ≤ ((s.Allow id now).2).expiresIn))
      ((s.Allow id now).2).visitors hnd2 hfind2
      (by
        apply decide_eq_true
        rw [Allow_expiresIn, hexp, hseen]
        norm_num)
    simp only [RateLimiterMemoryStore.cleanupStaleVisitors]
    rw [hkeep]
    rfl

/-- The four keys of the repository's cleanup test. -/
def keyA : String := "A"

/-- Second key of the cleanup test. -/
def keyB : String := "B"

/-- Third key of the cleanup test. -/
def keyC : String := "C"

/-- Fourth key of the cleanup test. -/
def keyD : String := "D"

/-- A visitor last seen at the witness clock instant 1000. -/
def visA : Visitor :=
  { limiter := { rate := 1, burst := 3, tokens := 3, last := 1000 }, lastSeen := 1000 }

/-- A visitor last seen one minute before the witness clock instant. -/
def visB : Visitor :=
  { limiter := { rate := 1, burst := 3, tokens := 3, last := 940 }, lastSeen := 940 }

/-- A visitor last seen five minutes before the witness clock instant. -/
def visC : Visitor :=
  { limiter := { rate := 1, burst := 3, tokens := 3, last := 700 }, lastSeen := 700 }

/-- A visitor last seen ten minutes before the witness clock instant. -/
def visD : Visitor :=
  { limiter := { rate := 1, burst := 3, tokens := 3, last := 400 }, lastSeen := 400 }

/-- The store of the repository's cleanup test: four visitors of varying
staleness under a 3-minute expiry. -/
def cleanupTestStore : RateLimiterMemoryStore :=
  { rate := 1, burst := 3, expiresIn := 180
    visitors := [(keyA, visA), (keyB, visB), (keyC, visC), (keyD, visD)] }

/-- C3 witness: at clock 1000 with a 180-second window, the five-minute-old
visitor `C` is evicted, the fresh visitor `A` and the one-minute-old
visitor `B` are retained, and the ten-minute-old visitor `D` survives the
pass after an `Allow` call for `D` at the same instant. -/
theorem C3_cleanup_stale_visitors_witness :
    ((cleanupTestStore.visitors.map Prod.fst).Nodup ∧ cleanupTestStore.expiresIn = 180) ∧
    (findVisitor cleanupTestStore.visitors keyC = some visC ∧ visC.lastSeen < 1000 - 180 ∧
      findVisitor (cleanupTestStore.cleanupStaleVisitors 1000).visitors keyC = none) ∧
    (findVisitor cleanupTestStore.visitors keyA = some visA ∧ (1000 : ℚ) - 180 ≤ visA.lastSeen ∧
      findVisitor (cleanupTestStore.cleanupStaleVisitors 1000).visitors keyA = some visA) ∧
    (findVisitor cleanupTestStore.visitors keyB = some visB ∧ (1000 : ℚ) - 180 ≤ visB.lastSeen ∧
      findVisitor (cleanupTestStore.cleanupStaleVisitors 1000).visitors keyB = some visB) ∧
    (findVisitor (((cleanupTestStore.Allow keyD 1000).2).cleanupStaleVisitors 1000).visitors
        keyD).isSome = true := by
  have h := C3_cleanup_stale_visitors cleanupTestStore 1000 (by decide) rfl
  refine ⟨⟨by decide, rfl⟩, ⟨rfl, by norm_num [visC], ?_⟩, ⟨rfl, by norm_num [visA], ?_⟩,
    ⟨rfl, by norm_num [visB], ?_⟩, h.2.2 keyD⟩
  · exact h.1 keyC visC rfl (by norm_num [visC])
  · exact h.2.1 keyA visA rfl (by norm_num [visA])
  · exact h.2.1 keyB visB rfl (by norm_num [visB])

/-- The visitor of a rate-1/burst-3 bucket holding `c` tokens, last
updated and last seen at time `t`. -/
def vAt (c : ℕ) (t : ℚ) : Visitor :=
  { limiter := { rate := 1, burst := 3, tokens := (c : ℚ), last := t }, lastSeen := t }

/-- One `Allow` call at the bucket's own timestamp on a singleton store
holding a rate-1/burst-3 visitor with `c ≤ 3` tokens: admitted exactly
when a full token is available, and then the token count drops by one. -/
theorem allow_vAt_store (c : ℕ) (hc : c ≤ 3) (E : ℚ) (id : String) (t : ℚ) :
    RateLimiterMemoryStore.Allow
        { rate := 1, burst := 3, expiresIn := E, visitors := [(id, vAt c t)] } id t
      = (decide (1 ≤ c),
         { rate := 1, burst := 3, expiresIn := E, visitors := [(id, vAt (c - 1) t)] }) := by
  cases c with
  | zero =>
    simp [RateLimiterMemoryStore.Allow, findVisitor, vAt, Limiter.allow, updateVisitor]
    norm_num
  | succ k =>
    have h3 : ((k + 1 : ℕ) : ℚ) ≤ 3 := by exact_mod_cast hc
    simp [RateLimiterMemoryStore.Allow, findVisitor, vAt, Limiter.allow, updateVisitor]
    rw [min_eq_right (by push_cast at h3 ⊢; linarith), max_eq_right (by positivity)]
    ring

/-- The first `Allow` call for an unseen identifier on an empty
rate-1/burst-3 store: admitted, creating a visitor with two tokens
left. -/
theorem allow_fresh_store (E : ℚ) (id : String) (t : ℚ) :
    RateLimiterMemoryStore.Allow
        { rate := 1, burst := 3, expiresIn := E, visitors := [] } id t
      = (true, { rate := 1, burst := 3, expiresIn := E, visitors := [(id, vAt 2 t)] }) := by
  simp [RateLimiterMemoryStore.Allow, findVisitor, vAt, Limiter.allow, updateVisitor]
  norm_num

/-- Peeling one element off the expected admit/deny pattern. -/
theorem range_map_decide_lt_succ (m c : ℕ) :
    (List.range (m + 1)).map (fun i => decide (i < c))
      = decide (1 ≤ c) :: (List.range m).map (fun i => decide (i < c - 1)) := by
  rw [List.range_succ_eq_map, List.map_cons, List.map_map]
  refine congrArg₂ List.cons (decide_eq_decide.mpr (by omega)) ?_
  apply List.map_congr_left
  intro i _
  simp only [Function.comp_apply]
  exact decide_eq_decide.mpr (by omega)

/-- Under a fixed clock, `m` back-to-back `Allow` calls on a
rate-1/burst-3 store holding `c ≤ 3` tokens admit exactly the first `c`
of them. -/
theorem fixedClock_aux (m : ℕ) :
    ∀ c : ℕ, c ≤ 3 → ∀ (E : ℚ) (id : String) (t : ℚ),
      allowRun { rate := 1, burst := 3, expiresIn := E, visitors := [(id, vAt c t)] }
          (List.replicate m (id, t))
        = (List.range m).map (fun i => decide (i < c)) := by
  induction m with
  | zero =>
    intro c hc E id t
    simp [allowRun]
  | succ m ih =>
    intro c hc E id t
    rw [List.replicate_succ]
    simp only [allowRun, allow_vAt_store c hc E id t]
    rw [ih (c - 1) (le_trans (Nat.sub_le c 1) hc) E id t]
    rw [range_map_decide_lt_succ]

/-- A denied token-bucket call leaves the bucket state unchanged. -/
theorem Limiter.allow_denied (l : Limiter) (t : ℚ) (h : (l.allow t).1 = false) :
    l.allow t = (false, l) := by
  by_cases hc : (1 : ℚ) ≤ max 0 (min ((l.burst : ℚ)) (l.tokens + l.rate * (t - l.last)))
  · exfalso
    have htrue : (l.allow t).1 = true := by
      simp only [Limiter.allow]
      rw [if_pos hc]
    rw [htrue] at h
    exact Bool.noConfusion h
  · simp only [Limiter.allow]
    rw [if_neg hc]

/-- The `Allow` decision for an identifier depends only on the store's
rate, burst, and that identifier's bucket (not its `lastSeen` time). -/
theorem Allow_fst_limiter_congr (s1 s2 : RateLimiterMemoryStore) (id : String) (t : ℚ)
    (h1 : s1.rate = s2.rate) (h2 : s1.burst = s2.burst)
    (h3 : Option.map Visitor.limiter (findVisitor s1.visitors id)
        = Option.map Visitor.limiter (findVisitor s2.visitors id)) :
    (s1.Allow id t).1 = (s2.Allow id t).1 := by
  cases hv1 : findVisitor s1.visitors id with
  | none =>
    cases hv2 : findVisitor s2.visitors id with
    | none => simp [RateLimiterMemoryStore.Allow, hv1, hv2, h1, h2]
    | some v2 =>
      rw [hv1, hv2] at h3
      simp at h3
  | some v1 =>
    cases hv2 : findVisitor s2.visitors id with
    | none =>
      rw [hv1, hv2] at h3
      simp at h3
    | some v2 =>
      rw [hv1, hv2] at h3
      simp only [Option.map_some', Option.some.injEq] at h3
      simp [RateLimiterMemoryStore.Allow, hv1, hv2, h3]

/-- On a burst-3 store, a denied `Allow` call consumes no token and does
not change the outcome of any later `Allow` call. -/
theorem denied_Allow_preserves (s : RateLimiterMemoryStore) (hb : s.burst = 3)
    (id2 : String) (t2 : ℚ) (hd : (s.Allow id2 t2).1 = false)
    (id3 : String) (t3 : ℚ) :
    (((s.Allow id2 t2).2).Allow id3 t3).1 = (s.Allow id3 t3).1 := by
  cases hfind : findVisitor s.visitors id2 with
  | none =>
    exfalso
    have htrue : (s.Allow id2 t2).1 = true := by
      simp [RateLimiterMemoryStore.Allow, hfind, Limiter.allow, hb]
    rw [htrue] at hd
    exact Bool.noConfusion hd
  | some v =>
    have hres : (v.limiter.allow t2).1 = false := by
      simpa [RateLimiterMemoryStore.Allow, hfind] using hd
    have hallow : v.limiter.allow t2 = (false, v.limiter) := Limiter.allow_denied _ _ hres
    have hvis : ((s.Allow id2 t2).2).visitors
        = updateVisitor s.visitors id2 { limiter := v.limiter, lastSeen := t2 } := by
      simp [RateLimiterMemoryStore.Allow, hfind, hallow]
    apply Allow_fst_limiter_congr
    · exact Allow_rate s id2 t2
    · exact Allow_burst s id2 t2
    · rw [hvis]
      by_cases hid : id2 = id3
      · subst hid
        rw [findVisitor_updateVisitor_self, hfind]
        simp
      · rw [findVisitor_updateVisitor_ne id2 id3 _ hid]

/-- Under any fixed clock, a fresh rate-1/burst-3 store admits exactly the
first three of `n` back-to-back `Allow` calls for one identifier. -/
theorem allowRun_fixed_clock (e : ℚ) (id : String) (t : ℚ) (n : ℕ) :
    allowRun (NewRateLimiterMemoryStoreWithConfig { Rate := 1, Burst := 3, ExpiresIn := e })
        (List.replicate n (id, t))
      = (List.range n).map (fun i => decide (i < 3)) := by
  have hstore : NewRateLimiterMemoryStoreWithConfig { Rate := 1, Burst := 3, ExpiresIn := e }
      = { rate := 1, burst := 3, expiresIn := if e ≤ 0 then 180 else e, visitors := [] } := by
    simp [NewRateLimiterMemoryStoreWithConfig]
  rw [hstore]
  cases n with
  | zero => simp [allowRun]
  | succ m =>
    rw [List.replicate_succ]
    simp only [allowRun, allow_fresh_store]
    rw [fixedClock_aux m 2 (by omega), range_map_decide_lt_succ]
    rfl

/-- C2: for a store configured with rate 1 and burst 3 under a fixed
clock, exactly the first three `Allow` calls for a given identifier are
admitted and every subsequent call for that identifier is denied; and on
any burst-3 store a denied call consumes no token, so it does not change
the outcome of any later `Allow` call. -/
theorem C2_fixed_clock_exhaustion (e : ℚ) (id : String) (t : ℚ) (n : ℕ) :
    allowRun (NewRateLimiterMemoryStoreWithConfig { Rate := 1, Burst := 3, ExpiresIn := e })
        (List.replicate n (id, t))
      = (List.range n).map (fun i => decide (i < 3)) ∧
    (∀ s : RateLimiterMemoryStore, s.burst = 3 →
      ∀ (id2 : String) (t2 : ℚ), (s.Allow id2 t2).1 = false →
        ∀ (id3 : String) (t3 : ℚ),
          (((s.Allow id2 t2).2).Allow id3 t3).1 = (s.Allow id3 t3).1) :=
  ⟨allowRun_fixed_clock e id t n,
   fun s hb id2 t2 hd id3 t3 => denied_Allow_preserves s hb id2 t2 hd id3 t3⟩

/-- C2 witness: seven immediate calls for `idA` on a fresh store admit
exactly the first three, and on the concrete exhausted store a denied call
leaves the next outcome unchanged. -/
theorem C2_fixed_clock_exhaustion_witness :
    allowRun (NewRateLimiterMemoryStoreWithConfig { Rate := 1, Burst := 3, ExpiresIn := 2 })
        (List.replicate 7 (idA, 0))
      = [true, true, true, false, false, false, false] ∧
    (exhaustedStore.burst = 3 ∧ (exhaustedStore.Allow idA 0).1 = false ∧
      (((exhaustedStore.Allow idA 0).2).Allow idA 0).1 = (exhaustedStore.Allow idA 0).1) := by
  have hd : (exhaustedStore.Allow idA 0).1 = false := by
    norm_num [exhaustedStore, RateLimiterMemoryStore.Allow, Limiter.allow, findVisitor,
      min_def, max_def]
  refine ⟨(C2_fixed_clock_exhaustion 2 idA 0 7).1.trans (by rfl), rfl, hd, ?_⟩
  exact (C2_fixed_clock_exhaustion 2 idA 0 7).2 exhaustedStore rfl idA 0 hd idA 0
